import Mathlib

/-!
Verification of the AI scoring service.

A shallow embedding of `ai-scorer/app/api.py`: the transaction-scoring
endpoint `score_transaction` (feature extraction with per-field defaults,
anomaly-score normalization, fee-adequacy heuristic, error envelope) and the
model lifecycle function `load_or_create_model`.

Numeric values are modelled as rationals; the anomaly model itself is opaque
to the scoring service and is modelled as a pair of functions (the label
`predict` and the continuous `decision_function`), either of which may raise
(modelled as `Except`).
-/

namespace AiScorer

/-- A parsed JSON object body: an association list from field names to
numeric values.  `data.get(key, default)` and Python dict truthiness
(`not data` is true exactly when the dict is empty) are modelled below. -/
structure Payload where
  fields : List (String × ℚ)
deriving DecidableEq

/-- Python `data.get(k, d)`. -/
def Payload.get (p : Payload) (k : String) (d : ℚ) : ℚ :=
  match p.fields.lookup k with
  | some v => v
  | none => d

/-- Python truthiness test `not data` for the parsed dict: true iff empty. -/
def Payload.isFalsy (p : Payload) : Bool :=
  p.fields.isEmpty

/-- The loaded anomaly-model handle, opaque from the scoring service's view.
`predict` yields the discrete label (−1 anomaly / +1 normal in sklearn's
convention, but the service does not rely on that); `decision_function`
yields the raw continuous score.  Either call may raise an exception. -/
structure Model where
  predict : List ℚ → Except String ℤ
  decision_function : List ℚ → Except String ℚ

/-- The 8 feature field names, in the fixed order of `score_transaction`. -/
def featureFieldNames : List String :=
  ["num_inputs", "num_outputs", "total_input", "total_output",
   "fee", "fee_rate", "change_ratio", "input_diversity"]

/-- The ordered feature vector built in `score_transaction`: each of the 8
named fields read with `data.get(field, 0)`. -/
def extract_features (data : Payload) : List ℚ :=
  [data.get "num_inputs" 0,
   data.get "num_outputs" 0,
   data.get "total_input" 0,
   data.get "total_output" 0,
   data.get "fee" 0,
   data.get "fee_rate" 0,
   data.get "change_ratio" 0,
   data.get "input_diversity" 0]

/-- The HTTP response of `POST /score/tx`:
400 `{"error": ...}`, 200 `{"anomaly_score", "fee_adequacy", "message"}`,
or 500 `{"error": ...}` from the catch-all `except`. -/
inductive ScoreResponse where
  | badRequest (error : String)
  | ok (anomaly_score fee_adequacy : ℚ) (message : String)
  | internalError (error : String)
deriving DecidableEq

set_option linter.unusedVariables false in
/-- Embedding of `score_transaction` from `api.py`.  `body` is the result of
`request.get_json()`: `none` when the body is absent or unparseable.
Mirrors the source line by line: the falsy-data 400 guard, feature
extraction, the label-based `anomaly_score` that is then overwritten by the
normalized decision score, the fee-adequacy heuristic with its halving, and
the catch-all 500 on a raised exception. -/
def score_transaction (model : Model) (body : Option Payload) : ScoreResponse :=
  match body with
  | none => .badRequest "No JSON data provided"
  | some data =>
    if data.isFalsy then .badRequest "No JSON data provided"
    else
      let features := extract_features data
      match model.predict features with
      | .error e => .internalError e
      | .ok prediction =>
        let anomaly_score : ℚ := if prediction = -1 then 1 else 0
        match model.decision_function features with
        | .error e => .internalError e
        | .ok decision_score =>
          let normalized_score : ℚ := max 0 (min 1 (1/2 - decision_score))
          let anomaly_score := normalized_score
          let fee_rate := data.get "fee_rate" 0
          let fee_adequacy : ℚ := min 1 (max 0 (fee_rate * 100))
          let fee := data.get "fee" 0
          let fee_adequacy := if fee < 1/10 then fee_adequacy * (1/2) else fee_adequacy
          .ok anomaly_score fee_adequacy "Transaction scored successfully"

/-- The request handler viewed as a transformer of the process-wide global
`tx_anomaly_model`: the body of `score_transaction` contains no assignment
to module state (no `global` statement, no attribute writes), so the handler
returns the model state unchanged. -/
def handle_score_tx (st : Model) (body : Option Payload) : ScoreResponse × Model :=
  (score_transaction st body, st)

/-- Hyperparameters and fit state of the IsolationForest, as far as
`load_or_create_model` configures them. -/
structure IsolationForestModel where
  contamination : ℚ
  random_state : ℕ
  n_estimators : ℕ
  fitted : Option (List (List ℚ))
deriving DecidableEq

/-- The fixed 3-row bootstrap sample `dummy_data` of `load_or_create_model`. -/
def dummy_data : List (List ℚ) :=
  [[2, 2, 100, 100, 1, 1/100, 95/100, 1],
   [1, 1, 50, 50, 1/2, 1/100, 1, 1],
   [3, 3, 200, 200, 2, 1/100, 9/10, 1]]

/-- The file at `model_path` (`models/tx_anomaly_model.pkl`): absent, present
but corrupt/unreadable (so `joblib.load` raises), or a valid serialized
model. -/
inductive FileState where
  | absent
  | corrupt
  | valid (m : IsolationForestModel)
deriving DecidableEq

/-- Process/filesystem state seen by `load_or_create_model`: the artifact
file, whether the `models` directory exists, whether the artifact path is
writable (so `joblib.dump` succeeds), and the global `tx_anomaly_model`. -/
structure ScorerState where
  file : FileState
  modelsDirExists : Bool
  pathWritable : Bool
  tx_anomaly_model : Option IsolationForestModel
deriving DecidableEq

/-- Embedding of `load_or_create_model` from `api.py`.  Returns the final state paired
with the exception that propagated, if any (`none` = returned normally).
Mirrors the source: if the file exists it is loaded (`joblib.load` raising
on a corrupt artifact propagates before the global is assigned); otherwise
a fresh `IsolationForest(contamination=0.1, random_state=42,
n_estimators=100)` is fit on `dummy_data` and assigned to the global, the
`models` directory is created, and `joblib.dump` persists it — a dump
failure propagates after the global assignment has already happened. -/
def load_or_create_model (s : ScorerState) : ScorerState × Option String :=
  match s.file with
  | .valid m => ({ s with tx_anomaly_model := some m }, none)
  | .corrupt => (s, some "ModelLoadError")
  | .absent =>
    let m : IsolationForestModel :=
      { contamination := 1/10, random_state := 42, n_estimators := 100,
        fitted := some dummy_data }
    let s1 := { s with tx_anomaly_model := some m, modelsDirExists := true }
    if s.pathWritable then
      ({ s1 with file := .valid m }, none)
    else
      (s1, some "ModelPersistError")

/-- A model handle whose inference calls always succeed, for concrete runs:
decision score 3/10, label +1. -/
def okModel : Model :=
  { predict := fun _ => .ok 1,
    decision_function := fun _ => .ok (3/10) }

/-- A fully populated sample payload (the docstring example of the route). -/
def samplePayload : Payload :=
  ⟨[("num_inputs", 2), ("num_outputs", 2), ("total_input", 100),
    ("total_output", 99), ("fee", 1), ("fee_rate", 1/100),
    ("change_ratio", 99/100), ("input_diversity", 1)]⟩

lemma clampMaxMin_nonneg (x : ℚ) : 0 ≤ max 0 (min 1 x) :=
  le_max_left 0 _

lemma clampMaxMin_le_one (x : ℚ) : max 0 (min 1 x) ≤ 1 :=
  max_le zero_le_one (min_le_left 1 x)

lemma clampMinMax_nonneg (x : ℚ) : 0 ≤ min 1 (max 0 x) :=
  le_min zero_le_one (le_max_left 0 x)

lemma clampMinMax_le_one (x : ℚ) : min 1 (max 0 x) ≤ 1 :=
  min_le_left 1 _

/-- Forward evaluation of `score_transaction` on a non-empty payload whose
model calls both succeed: the response in closed form. -/
lemma score_eval (m : Model) (p : Payload) (l : ℤ) (d : ℚ)
    (hfalsy : p.isFalsy = false)
    (hp : m.predict (extract_features p) = .ok l)
    (hd : m.decision_function (extract_features p) = .ok d) :
    score_transaction m (some p) =
      .ok (max 0 (min 1 (1/2 - d)))
          (if p.get "fee" 0 < 1/10
            then (min 1 (max 0 (p.get "fee_rate" 0 * 100))) * (1/2)
            else min 1 (max 0 (p.get "fee_rate" 0 * 100)))
          "Transaction scored successfully" := by
  simp only [score_transaction, hfalsy, Bool.false_eq_true, if_false, hp, hd]

/-- Whenever `score_transaction` returns a 200 response, its components are
exactly the normalized anomaly score and the heuristic fee adequacy of the
payload, in closed form. -/
lemma score_ok_inversion (model : Model) (p : Payload) (a f : ℚ) (msg : String)
    (h : score_transaction model (some p) = .ok a f msg) :
    ∃ d : ℚ, model.decision_function (extract_features p) = .ok d ∧
      a = max 0 (min 1 (1/2 - d)) ∧
      f = (if p.get "fee" 0 < 1/10
            then (min 1 (max 0 (p.get "fee_rate" 0 * 100))) * (1/2)
            else min 1 (max 0 (p.get "fee_rate" 0 * 100))) ∧
      msg = "Transaction scored successfully" := by
  unfold score_transaction at h
  by_cases hf : p.isFalsy
  · simp [hf] at h
  · simp only [hf, Bool.false_eq_true, if_false] at h
    rcases hp : model.predict (extract_features p) with e | prediction
    · rw [hp] at h; simp at h
    · rw [hp] at h
      rcases hd : model.decision_function (extract_features p) with e | d
      · rw [hd] at h; simp at h
      · rw [hd] at h
        simp only [ScoreResponse.ok.injEq] at h
        exact ⟨d, rfl, h.1.symm, h.2.1.symm, h.2.2.symm⟩

/-- C1: for every payload accepted for scoring (a present, parseable JSON
object whose request succeeds), the returned `anomaly_score` and
`fee_adequacy` both lie in the closed interval [0, 1]. -/
theorem scores_bounded (model : Model) (p : Payload) (a f : ℚ) (msg : String)
    (h : score_transaction model (some p) = .ok a f msg) :
    0 ≤ a ∧ a ≤ 1 ∧ 0 ≤ f ∧ f ≤ 1 := by
  obtain ⟨d, _, ha, hf, -⟩ := score_ok_inversion model p a f msg h
  subst ha
  refine ⟨clampMaxMin_nonneg _, clampMaxMin_le_one _, ?_, ?_⟩ <;> rw [hf]
  · split
    · have := clampMinMax_nonneg (p.get "fee_rate" 0 * 100)
      linarith
    · exact clampMinMax_nonneg _
  · split
    · have h1 := clampMinMax_le_one (p.get "fee_rate" 0 * 100)
      have h0 := clampMinMax_nonneg (p.get "fee_rate" 0 * 100)
      linarith
    · exact clampMinMax_le_one _

/-- Witness for C1 at a concrete model and payload: decision score 3/10,
fee_rate 1/100, fee 1 give anomaly 1/5 and fee adequacy 1, both in [0, 1]. -/
theorem scores_bounded_witness :
    0 ≤ (1/5 : ℚ) ∧ (1/5 : ℚ) ≤ 1 ∧ 0 ≤ (1 : ℚ) ∧ (1 : ℚ) ≤ 1 :=
  scores_bounded okModel samplePayload (1/5) 1 "Transaction scored successfully"
    (by rw [score_eval okModel samplePayload 1 (3/10) rfl rfl rfl]
        have hfee : samplePayload.get "fee" 0 = 1 := by
          simp [samplePayload, Payload.get, List.lookup]
        have hrate : samplePayload.get "fee_rate" 0 = 1/100 := by
          simp [samplePayload, Payload.get, List.lookup]
        rw [hfee, hrate]
        norm_num [min_def, max_def])

/-- C2 counterexample: the empty JSON object is a present, parseable payload
with all 8 fields missing, yet `score_transaction` answers with the 400
error response — Python's `if not data:` is true for an empty dict, so a
payload with every field missing is rejected exactly like an absent body. -/
theorem empty_object_rejected :
    score_transaction okModel (some ⟨[]⟩) = .badRequest "No JSON data provided" :=
  rfl

/-- C2 (amended): for every scored payload that is a *non-empty* JSON
object, any of the 8 named feature fields that is missing defaults to the
numeric value 0 and never causes the 400 error; the 400 error is returned
when the body is absent/unparseable — and also when the payload is the
empty JSON object, which Python's falsiness test conflates with an absent
body. -/
theorem missing_fields_default (model : Model) (p : Payload)
    (hne : p.fields ≠ []) :
    (∀ e, score_transaction model (some p) ≠ .badRequest e) ∧
    score_transaction model none = .badRequest "No JSON data provided" ∧
    (∀ i k, featureFieldNames.get? i = some k → p.fields.lookup k = none →
      (extract_features p).get? i = some 0) := by
  have hfalsy : p.isFalsy = false := by
    rcases hf : p.fields with _ | ⟨a, t⟩
    · exact absurd hf hne
    · simp [Payload.isFalsy, hf]
  refine ⟨?_, rfl, ?_⟩
  · intro e h
    rcases hp : model.predict (extract_features p) with e1 | l
    · simp [score_transaction, hfalsy, hp] at h
    · rcases hd : model.decision_function (extract_features p) with e2 | d
      · simp [score_transaction, hfalsy, hp, hd] at h
      · rw [score_eval model p l d hfalsy hp hd] at h
        exact ScoreResponse.noConfusion h
  · intro i k hk hnone
    rcases i with _|_|_|_|_|_|_|_|i
    · simp only [featureFieldNames, List.get?, Option.some.injEq] at hk
      subst hk; simp [extract_features, Payload.get, hnone]
    · simp only [featureFieldNames, List.get?, Option.some.injEq] at hk
      subst hk; simp [extract_features, Payload.get, hnone]
    · simp only [featureFieldNames, List.get?, Option.some.injEq] at hk
      subst hk; simp [extract_features, Payload.get, hnone]
    · simp only [featureFieldNames, List.get?, Option.some.injEq] at hk
      subst hk; simp [extract_features, Payload.get, hnone]
    · simp only [featureFieldNames, List.get?, Option.some.injEq] at hk
      subst hk; simp [extract_features, Payload.get, hnone]
    · simp only [featureFieldNames, List.get?, Option.some.injEq] at hk
      subst hk; simp [extract_features, Payload.get, hnone]
    · simp only [featureFieldNames, List.get?, Option.some.injEq] at hk
      subst hk; simp [extract_features, Payload.get, hnone]
    · simp only [featureFieldNames, List.get?, Option.some.injEq] at hk
      subst hk; simp [extract_features, Payload.get, hnone]
    · simp [featureFieldNames] at hk

/-- A payload carrying only a `fee` field, for the C2 witness. -/
def feeOnlyPayload : Payload := ⟨[("fee", 1)]⟩

/-- Witness for the amended C2 at a concrete payload holding only `fee`:
the request is never answered 400, an absent body is, and every one of the
7 missing fields extracts as 0. -/
theorem missing_fields_default_witness :
    (∀ e, score_transaction okModel (some feeOnlyPayload) ≠ .badRequest e) ∧
    score_transaction okModel none = .badRequest "No JSON data provided" ∧
    (∀ i k, featureFieldNames.get? i = some k →
      feeOnlyPayload.fields.lookup k = none →
      (extract_features feeOnlyPayload).get? i = some 0) :=
  missing_fields_default okModel feeOnlyPayload (by simp [feeOnlyPayload])

/-- C3: whenever the endpoint returns 200, the anomaly score equals
clamp(0.5 − decisionScore, 0, 1) where decisionScore is the model's raw
decision-function output on the extracted features; and the discrete −1/+1
label does not affect the response: any model with the same decision
function whose predict call succeeds (with whatever label) yields the
identical response.  The response constructor carries only the two scores
and the message, so the label is also not included in it. -/
theorem anomaly_normalization (m : Model) (p : Payload) (a f : ℚ)
    (msg : String) (d : ℚ)
    (hd : m.decision_function (extract_features p) = .ok d)
    (h : score_transaction m (some p) = .ok a f msg) :
    a = max 0 (min 1 (1/2 - d)) ∧
    ∀ m2 : Model, m2.decision_function = m.decision_function →
      (∃ l2, m2.predict (extract_features p) = .ok l2) →
      score_transaction m2 (some p) = score_transaction m (some p) := by
  obtain ⟨d0, hd0, ha, -, -⟩ := score_ok_inversion m p a f msg h
  have hdd : d0 = d := by
    rw [hd0] at hd
    injection hd with hdd
  subst hdd
  refine ⟨ha, ?_⟩
  intro m2 h2 ⟨l2, hl2⟩
  have hfalsy : p.isFalsy = false := by
    by_contra hfT
    have hfT : p.isFalsy = true := by
      revert hfT; cases p.isFalsy <;> simp
    simp [score_transaction, hfT] at h
  rcases hp : m.predict (extract_features p) with e1 | l
  · simp [score_transaction, hfalsy, hp] at h
  · rw [score_eval m2 p l2 d0 hfalsy hl2 (h2 ▸ hd0),
        score_eval m p l d0 hfalsy hp hd0]

/-- A model handle with the same decision function as `okModel` but the
anomaly label −1, for the C3 witness. -/
def flippedLabelModel : Model :=
  { predict := fun _ => .ok (-1),
    decision_function := fun _ => .ok (3/10) }

/-- Witness for C3 at a concrete model and payload: the returned anomaly
score 1/5 is clamp(0.5 − 3/10, 0, 1), and flipping the predicted label to
−1 leaves the response unchanged. -/
theorem anomaly_normalization_witness :
    (1/5 : ℚ) = max 0 (min 1 (1/2 - 3/10)) ∧
    ∀ m2 : Model, m2.decision_function = okModel.decision_function →
      (∃ l2, m2.predict (extract_features samplePayload) = .ok l2) →
      score_transaction m2 (some samplePayload) =
        score_transaction okModel (some samplePayload) :=
  anomaly_normalization okModel samplePayload (1/5) 1
    "Transaction scored successfully" (3/10) rfl
    (by rw [score_eval okModel samplePayload 1 (3/10) rfl rfl rfl]
        have hfee : samplePayload.get "fee" 0 = 1 := by
          simp [samplePayload, Payload.get, List.lookup]
        have hrate : samplePayload.get "fee_rate" 0 = 1/100 := by
          simp [samplePayload, Payload.get, List.lookup]
        rw [hfee, hrate]
        norm_num [min_def, max_def])

/-- C4: whenever the endpoint returns 200, the fee adequacy is
clamp(fee_rate·100, 0, 1), multiplied by 1/2 exactly when fee < 1/10; in
particular fee_rate = 1/100 with fee = 1 gives 1, fee_rate = 1/100 with
fee = 1/20 gives 1/2, and fee_rate = 0 gives 0 whatever the fee. -/
theorem fee_adequacy_heuristic (m : Model) (p : Payload) (a f : ℚ)
    (msg : String) (h : score_transaction m (some p) = .ok a f msg) :
    (f = if p.get "fee" 0 < 1/10
          then (min 1 (max 0 (p.get "fee_rate" 0 * 100))) * (1/2)
          else min 1 (max 0 (p.get "fee_rate" 0 * 100))) ∧
    (p.get "fee_rate" 0 = 1/100 → p.get "fee" 0 = 1 → f = 1) ∧
    (p.get "fee_rate" 0 = 1/100 → p.get "fee" 0 = 1/20 → f = 1/2) ∧
    (p.get "fee_rate" 0 = 0 → f = 0) := by
  obtain ⟨d, hd, -, hf, -⟩ := score_ok_inversion m p a f msg h
  refine ⟨hf, ?_, ?_, ?_⟩
  · intro h1 h2; rw [hf, h1, h2]; norm_num [min_def, max_def]
  · intro h1 h2; rw [hf, h1, h2]; norm_num [min_def, max_def]
  · intro h1; rw [hf, h1]; split <;> norm_num [min_def, max_def]

/-- Witness for C4 at a concrete model and payload with fee_rate = 1/100
and fee = 1: the fee adequacy is the unhalved clamp, here 1. -/
theorem fee_adequacy_heuristic_witness :
    ((1 : ℚ) = if samplePayload.get "fee" 0 < 1/10
          then (min 1 (max 0 (samplePayload.get "fee_rate" 0 * 100))) * (1/2)
          else min 1 (max 0 (samplePayload.get "fee_rate" 0 * 100))) ∧
    (samplePayload.get "fee_rate" 0 = 1/100 → samplePayload.get "fee" 0 = 1 →
      (1 : ℚ) = 1) ∧
    (samplePayload.get "fee_rate" 0 = 1/100 → samplePayload.get "fee" 0 = 1/20 →
      (1 : ℚ) = 1/2) ∧
    (samplePayload.get "fee_rate" 0 = 0 → (1 : ℚ) = 0) :=
  fee_adequacy_heuristic okModel samplePayload (1/5) 1
    "Transaction scored successfully"
    (by rw [score_eval okModel samplePayload 1 (3/10) rfl rfl rfl]
        have hfee : samplePayload.get "fee" 0 = 1 := by
          simp [samplePayload, Payload.get, List.lookup]
        have hrate : samplePayload.get "fee_rate" 0 = 1/100 := by
          simp [samplePayload, Payload.get, List.lookup]
        rw [hfee, hrate]
        norm_num [min_def, max_def])

/-- C5: every answer of the transaction-scoring endpoint is exactly one of
the 400 error response, a 200 response carrying both scores together with
the success message, or a 500 response carrying an error string; an absent
or unparseable body is answered with the 400 error.  No other response
shape — in particular no success response with a single score — exists. -/
theorem response_envelope (m : Model) (body : Option Payload) :
    (body = none →
      score_transaction m body = .badRequest "No JSON data provided") ∧
    ((∃ e, score_transaction m body = .badRequest e) ∨
     (∃ a f, score_transaction m body =
        .ok a f "Transaction scored successfully") ∨
     (∃ e, score_transaction m body = .internalError e)) := by
  constructor
  · rintro rfl; rfl
  · rcases body with _ | p
    · exact .inl ⟨_, rfl⟩
    · cases hfv : p.isFalsy
      · rcases hp : m.predict (extract_features p) with e1 | l
        · exact .inr (.inr ⟨e1, by simp [score_transaction, hfv, hp]⟩)
        · rcases hd : m.decision_function (extract_features p) with e2 | d
          · exact .inr (.inr ⟨e2, by simp [score_transaction, hfv, hp, hd]⟩)
          · exact .inr (.inl ⟨_, _, score_eval m p l d hfv hp hd⟩)
      · exact .inl ⟨"No JSON data provided", by simp [score_transaction, hfv]⟩

/-- C9: the handler of the scoring endpoint leaves the process-wide model
state exactly as it found it, and serving the identical payload a second
time against the state left behind yields the identical response — the
computation is deterministic with no hidden randomness after model load. -/
theorem scoring_idempotent (m : Model) (body : Option Payload) :
    (handle_score_tx m body).2 = m ∧
    (handle_score_tx (handle_score_tx m body).2 body).1 =
      (handle_score_tx m body).1 :=
  ⟨rfl, rfl⟩

/-- C10: two scored payloads that agree on the `fee` and `fee_rate` fields
receive equal `fee_adequacy` values, whatever their other fields and
whatever the two anomaly models' outputs. -/
theorem fee_adequacy_depends_only_on_fees (m1 m2 : Model) (p1 p2 : Payload)
    (a1 f1 a2 f2 : ℚ) (s1 s2 : String)
    (hfee : p1.get "fee" 0 = p2.get "fee" 0)
    (hrate : p1.get "fee_rate" 0 = p2.get "fee_rate" 0)
    (h1 : score_transaction m1 (some p1) = .ok a1 f1 s1)
    (h2 : score_transaction m2 (some p2) = .ok a2 f2 s2) :
    f1 = f2 := by
  obtain ⟨d1, -, -, hf1, -⟩ := score_ok_inversion m1 p1 a1 f1 s1 h1
  obtain ⟨d2, -, -, hf2, -⟩ := score_ok_inversion m2 p2 a2 f2 s2 h2
  rw [hf1, hf2, hfee, hrate]

/-- A second model handle, with a different decision function than
`okModel`, for the C10 witness. -/
def altModel : Model :=
  { predict := fun _ => .ok (-1),
    decision_function := fun _ => .ok (1/10) }

/-- A payload agreeing with `samplePayload` on `fee` and `fee_rate` but on
nothing else, for the C10 witness. -/
def feeAgreePayload : Payload :=
  ⟨[("num_inputs", 9), ("fee", 1), ("fee_rate", 1/100)]⟩

/-- Witness for C10: two different payloads agreeing only on `fee` and
`fee_rate`, scored against two different models, both receive adequacy 1. -/
theorem fee_adequacy_depends_only_on_fees_witness : (1 : ℚ) = 1 :=
  fee_adequacy_depends_only_on_fees okModel altModel samplePayload
    feeAgreePayload (1/5) 1 (2/5) 1
    "Transaction scored successfully" "Transaction scored successfully"
    (by simp [samplePayload, feeAgreePayload, Payload.get, List.lookup])
    (by simp [samplePayload, feeAgreePayload, Payload.get, List.lookup])
    (by rw [score_eval okModel samplePayload 1 (3/10) rfl rfl rfl]
        have hfee : samplePayload.get "fee" 0 = 1 := by
          simp [samplePayload, Payload.get, List.lookup]
        have hrate : samplePayload.get "fee_rate" 0 = 1/100 := by
          simp [samplePayload, Payload.get, List.lookup]
        rw [hfee, hrate]
        norm_num [min_def, max_def])
    (by rw [score_eval altModel feeAgreePayload (-1) (1/10) rfl rfl rfl]
        have hfee : feeAgreePayload.get "fee" 0 = 1 := by
          simp [feeAgreePayload, Payload.get, List.lookup]
        have hrate : feeAgreePayload.get "fee_rate" 0 = 1/100 := by
          simp [feeAgreePayload, Payload.get, List.lookup]
        rw [hfee, hrate]
        norm_num [min_def, max_def])

/-- C6: with no artifact at the configured path (and the path writable, as
the unguarded `joblib.dump` requires to return), `load_or_create_model`
completes without an exception, having constructed an IsolationForest with
contamination 1/10, 100 estimators and fixed seed 42, fit it on the fixed
3-row bootstrap sample, assigned it to the global, persisted it at the
configured path, and created the `models` directory. -/
theorem cold_start_creates_and_persists (s : ScorerState)
    (habs : s.file = .absent) (hw : s.pathWritable = true) :
    ∃ m : IsolationForestModel,
      load_or_create_model s =
        ({ s with tx_anomaly_model := some m, modelsDirExists := true,
                  file := .valid m }, none) ∧
      m.contamination = 1/10 ∧ m.n_estimators = 100 ∧ m.random_state = 42 ∧
      m.fitted = some dummy_data ∧ dummy_data.length = 3 := by
  obtain ⟨file, dir, wr, g⟩ := s
  obtain rfl : file = .absent := habs
  obtain rfl : wr = true := hw
  exact ⟨_, rfl, rfl, rfl, rfl, rfl, rfl⟩

/-- A cold, writable starting state for the C6 witness. -/
def coldWritable : ScorerState :=
  { file := .absent, modelsDirExists := false, pathWritable := true,
    tx_anomaly_model := none }

/-- Witness for C6 at the concrete cold writable state. -/
theorem cold_start_creates_and_persists_witness :
    ∃ m : IsolationForestModel,
      load_or_create_model coldWritable =
        ({ coldWritable with
            tx_anomaly_model := some m,
            modelsDirExists := true, file := .valid m }, none) ∧
      m.contamination = 1/10 ∧ m.n_estimators = 100 ∧ m.random_state = 42 ∧
      m.fitted = some dummy_data ∧ dummy_data.length = 3 :=
  cold_start_creates_and_persists coldWritable rfl rfl

/-- A cold state whose artifact path is not writable, for C7. -/
def coldUnwritable : ScorerState :=
  { file := .absent, modelsDirExists := false, pathWritable := false,
    tx_anomaly_model := none }

/-- C7 counterexample: in the one scenario where the code persists a model
— no artifact exists and a fresh one is created — an unwritable path makes
`load_or_create_model` raise: the exception leaves the function uncaught
and unlogged, so manager initialization crashes instead of completing. -/
theorem persist_failure_raises :
    (load_or_create_model coldUnwritable).2 = some "ModelPersistError" :=
  rfl

/-- C7 (amended): a persist failure is not caught inside
`load_or_create_model`: the exception propagates out and initialization
fails; the global `tx_anomaly_model` has nevertheless already been assigned
the fitted in-memory model before the failing dump. -/
theorem persist_failure_propagates (s : ScorerState)
    (habs : s.file = .absent) (hw : s.pathWritable = false) :
    ∃ m : IsolationForestModel,
      load_or_create_model s =
        ({ s with tx_anomaly_model := some m, modelsDirExists := true },
          some "ModelPersistError") ∧
      m.fitted = some dummy_data := by
  obtain ⟨file, dir, wr, g⟩ := s
  obtain rfl : file = .absent := habs
  obtain rfl : wr = false := hw
  exact ⟨_, rfl, rfl⟩

/-- Witness for the amended C7 at the concrete cold unwritable state. -/
theorem persist_failure_propagates_witness :
    ∃ m : IsolationForestModel,
      load_or_create_model coldUnwritable =
        ({ coldUnwritable with
            tx_anomaly_model := some m,
            modelsDirExists := true }, some "ModelPersistError") ∧
      m.fitted = some dummy_data :=
  persist_failure_propagates coldUnwritable rfl rfl

/-- C8: with a corrupt or unreadable artifact at the configured path,
`load_or_create_model` raises (the load failure propagates and is thereby
reported) and leaves the state untouched: no fresh model is created or
persisted, the stored artifact is not replaced, and the global is not
assigned. -/
theorem corrupt_artifact_fails_loudly (s : ScorerState)
    (hc : s.file = .corrupt) :
    load_or_create_model s = (s, some "ModelLoadError") ∧
    (load_or_create_model s).1.file = .corrupt ∧
    (load_or_create_model s).1.tx_anomaly_model = s.tx_anomaly_model := by
  obtain ⟨file, dir, wr, g⟩ := s
  obtain rfl : file = .corrupt := hc
  exact ⟨rfl, rfl, rfl⟩

/-- A state holding a corrupt artifact, for the C8 witness. -/
def corruptState : ScorerState :=
  { file := .corrupt, modelsDirExists := true, pathWritable := true,
    tx_anomaly_model := none }

/-- Witness for C8 at the concrete corrupt-artifact state. -/
theorem corrupt_artifact_fails_loudly_witness :
    load_or_create_model corruptState = (corruptState, some "ModelLoadError") ∧
    (load_or_create_model corruptState).1.file = .corrupt ∧
    (load_or_create_model corruptState).1.tx_anomaly_model =
      corruptState.tx_anomaly_model :=
  corrupt_artifact_fails_loudly corruptState rfl

end AiScorer
